import Mathlib

/-!
Verification of the muse repository CORS development proxy.

The repository contains two HTTP request handlers:
SimpleProxyHandler in src/muse_plus/simple_proxy.py (outbound client: requests)
and CORSProxyHandler in src/proxy_server.py (outbound client: urllib).
Both accept OPTIONS and POST requests, rewrite the path onto a fixed upstream
origin, filter headers through fixed denylists, and relay the upstream response.

Modelling conventions.
Python strings are modelled as lists of Unicode code points (PyStr).
A handler is a pure function from the inbound request and the outcome of the
outbound call (a parameter standing for the nondeterministic network
environment) to the response written back to the caller.  The response records
the status code, the ordered list of headers emitted through send_header, and
the ordered list of wfile.write calls.  The Server and Date headers that the
Python standard library adds to every response are omitted uniformly; they are
identical on all code paths and touch no claim.  The upstream body handed back
by the requests library is modelled as the list of chunks that iter_content
yields; the full body is their concatenation, which is what response.content
returns.  Case mapping (str.lower, str.capitalize) is modelled on the ASCII
range, which covers every header name the code compares.
-/

set_option linter.unusedVariables false

namespace Muse

/-- A Python string, as its list of Unicode code points. -/
abbrev PyStr := List Nat

/-- Code points of a Lean string literal; used to write the constants of the model. -/
def s2b (s : String) : PyStr := s.toList.map Char.toNat

/-- ASCII lowering of one code point, the fragment of Python str.lower the code relies on. -/
def lowerB (b : Nat) : Nat := if 65 ≤ b ∧ b ≤ 90 then b + 32 else b

/-- ASCII raising of one code point, the fragment of Python str.upper the code relies on. -/
def upperB (b : Nat) : Nat := if 97 ≤ b ∧ b ≤ 122 then b - 32 else b

/-- Python str.lower on the ASCII range. -/
def pyLower (s : PyStr) : PyStr := s.map lowerB

/-- Python str.capitalize on the ASCII range: first code point raised, the rest lowered.
urllib Request.add_header applies this to every header name it stores. -/
def pyCapitalize : PyStr → PyStr
  | [] => []
  | b :: rest => upperB b :: rest.map lowerB

/-- Python str.startswith. -/
def pyStartsWith (s p : PyStr) : Bool := p.isPrefixOf s

/-- Fuelled core of Python str.replace: scan left to right, replacing each
leftmost non-overlapping occurrence of pat by rep.  Each step consumes at
least one element of s, so fuel equal to the length of s is exact. -/
def pyReplaceFuel : Nat → PyStr → PyStr → PyStr → PyStr
  | 0, s, _, _ => s
  | _ + 1, [], _, _ => []
  | fuel + 1, b :: rest, pat, rep =>
      if pat ≠ [] ∧ pat.isPrefixOf (b :: rest) then
        rep ++ pyReplaceFuel fuel ((b :: rest).drop pat.length) pat rep
      else
        b :: pyReplaceFuel fuel rest pat rep

/-- Python str.replace (all occurrences, left to right, non-overlapping). -/
def pyReplace (s pat rep : PyStr) : PyStr := pyReplaceFuel s.length s pat rep

/-- Whether pat occurs as a contiguous sublist of s. -/
def occursIn (pat : PyStr) : PyStr → Bool
  | [] => pat.isEmpty
  | b :: rest => pat.isPrefixOf (b :: rest) || occursIn pat rest

/-- Python dict item assignment on an insertion-ordered association list:
an existing key keeps its position and receives the new value, a new key is
appended at the end. -/
def dictInsert (d : List (PyStr × PyStr)) (k v : PyStr) : List (PyStr × PyStr) :=
  if d.any (fun p => p.1 == k) then
    d.map (fun p => if p.1 == k then (k, v) else p)
  else d ++ [(k, v)]

/-- The response a handler writes back to its caller: status code, the ordered
list of headers passed to send_header, and the ordered list of wfile.write
calls (each entry one write, holding the bytes written). -/
structure HttpResponse where
  status : Nat
  headers : List (PyStr × PyStr)
  writes : List (List Nat)
  deriving DecidableEq

/-- One event of the streaming relay loop: a chunk read from upstream, a chunk
written to the caller, or a flush of the caller-side buffer. -/
inductive StreamEv where
  | read : List Nat → StreamEv
  | write : List Nat → StreamEv
  | flush : StreamEv
  deriving DecidableEq

/-- Event trace of the streaming loop in SimpleProxyHandler.do_POST
(simple_proxy.py lines 84-93): each chunk yielded by iter_content is read;
a non-empty chunk is then written and the output is flushed before the next
read occurs. -/
def streamEvents : List (List Nat) → List StreamEv
  | [] => []
  | c :: cs =>
      .read c :: (if c = [] then streamEvents cs else .write c :: .flush :: streamEvents cs)

/-- The writes contained in a stream trace, in order. -/
def writesOf (evs : List StreamEv) : List (List Nat) :=
  evs.filterMap fun e => match e with | .write c => some c | _ => none

/-- Holds when every write in the trace is immediately followed by a flush,
so the flush happens before any later read. -/
def flushAfterEachWrite : List StreamEv → Bool
  | [] => true
  | .write _ :: rest =>
      (match rest with | .flush :: _ => true | _ => false) && flushAfterEachWrite rest
  | _ :: rest => flushAfterEachWrite rest

/-- The inbound HTTP request as the handlers see it: method, raw path
(including any query string), header items in arrival order, and the body
bytes the handler reads. -/
structure Request where
  method : PyStr
  path : PyStr
  headers : List (PyStr × PyStr)
  body : List Nat
  deriving DecidableEq

/-- The outbound request a handler builds for its HTTP client library. -/
structure OutboundRequest where
  url : PyStr
  headers : List (PyStr × PyStr)
  body : List Nat
  deriving DecidableEq

/-- Modelled on the DEFAULT_ERROR_MESSAGE template of CPython http.server:
the HTML page that BaseHTTPRequestHandler.send_error writes as the body of an
error response. -/
def errorPageBody (code : Nat) (message explain : PyStr) : PyStr :=
  s2b "<!DOCTYPE HTML>\n<html lang=\"en\">\n    <head>\n        <meta charset=\"utf-8\">\n        <title>Error response</title>\n    </head>\n    <body>\n        <h1>Error response</h1>\n        <p>Error code: " ++
  s2b (toString code) ++ s2b "</p>\n        <p>Message: " ++ message ++
  s2b ".</p>\n        <p>Explanation: " ++ s2b (toString code) ++ s2b " - " ++ explain ++
  s2b ".</p>\n    </body>\n</html>\n"

/-- Modelled on CPython http.server BaseHTTPRequestHandler.send_error: status
line, a Connection close header, then for a 4xx or 5xx code the Content-Type
and Content-Length of the HTML error page, followed by the page as body.
The Server and Date headers are omitted as everywhere in this model, and the
HTML escaping of the message is dropped: every message the handlers pass is
free of markup characters. -/
def sendError (code : Nat) (message explain : PyStr) : HttpResponse :=
  { status := code
    headers := [(s2b "Connection", s2b "close"),
                (s2b "Content-Type", s2b "text/html;charset=utf-8"),
                (s2b "Content-Length", s2b (toString (errorPageBody code message explain).length))]
    writes := [errorPageBody code message explain] }

/-- Explanation text CPython associates with status 404. -/
def notFoundExplain : PyStr := s2b "Nothing matches the given URI"

/-- Request-header denylist shared by both handlers
(simple_proxy.py line 50, proxy_server.py line 51): inbound headers whose
lowercased name is listed here are not copied onto the outbound request. -/
def reqDenyNames : List PyStr :=
  [s2b "host", s2b "origin", s2b "referer", s2b "content-length"]

/-- The response of BaseHTTPRequestHandler to a method it has no handler for,
as produced for a command m by its dispatch: send_error with status 501 and the
message Unsupported method, quoting the command. -/
def unsupportedMethod (m : PyStr) : HttpResponse :=
  sendError 501 (s2b "Unsupported method (" ++ [39] ++ m ++ [39] ++ s2b ")")
    (s2b "Server does not support this operation")

namespace SimpleProxyHandler

/-- The four headers emitted by SimpleProxyHandler.send_cors_headers
(simple_proxy.py lines 119-124), in emission order. -/
def corsHdrs : List (PyStr × PyStr) :=
  [(s2b "Access-Control-Allow-Origin", s2b "*"),
   (s2b "Access-Control-Allow-Methods", s2b "GET, POST, PUT, DELETE, OPTIONS"),
   (s2b "Access-Control-Allow-Headers", s2b "Content-Type, Authorization, X-DashScope-SSE"),
   (s2b "Access-Control-Max-Age", s2b "86400")]

/-- The header-preparation loop of simple_proxy.py lines 47-53: every inbound
header whose lowercased name is not denylisted is stored in a Python dict
under its original name. -/
def filterRequestHdrs (hs : List (PyStr × PyStr)) : List (PyStr × PyStr) :=
  hs.foldl
    (fun d p =>
      if reqDenyNames.contains (pyLower p.1) then d else dictInsert d p.1 p.2) []

/-- The streaming flag computed inside the same loop (simple_proxy.py lines
48-53): set when a non-denylisted inbound header has lowercased name
x-dashscope-sse and the exact value enable. -/
def isStreaming (hs : List (PyStr × PyStr)) : Bool :=
  hs.any fun p =>
    !(reqDenyNames.contains (pyLower p.1)) &&
    pyLower p.1 == s2b "x-dashscope-sse" && p.2 == s2b "enable"

/-- Response-header denylist of simple_proxy.py line 73. -/
def respDenyNames : List PyStr :=
  [s2b "access-control-allow-origin", s2b "content-encoding", s2b "transfer-encoding"]

/-- The response-header copy loop of simple_proxy.py lines 72-74. -/
def filterResponseHdrs (hs : List (PyStr × PyStr)) : List (PyStr × PyStr) :=
  hs.filter fun p => !(respDenyNames.contains (pyLower p.1))

/-- Target URL computation of simple_proxy.py lines 36-37: Python str.replace
removes every occurrence of the prefix string from the path, and the result is
appended to the fixed upstream origin. -/
def targetUrl (path : PyStr) : PyStr :=
  s2b "https://dashscope.aliyuncs.com" ++ pyReplace path (s2b "/api/dashscope") []

/-- The outbound request handed to requests.post (simple_proxy.py lines 58-65). -/
def outbound (req : Request) : OutboundRequest :=
  { url := targetUrl req.path, headers := filterRequestHdrs req.headers, body := req.body }

/-- Outcome of the requests.post call: either a response with status, headers
and a body delivered as the chunks iter_content yields (their concatenation is
response.content), or a raised requests.exceptions.RequestException carrying
the message of the transport-level failure. -/
inductive Upstream where
  | ok : Nat → List (PyStr × PyStr) → List (List Nat) → Upstream
  | requestException : PyStr → Upstream
  deriving DecidableEq

/-- The JSON error body of simple_proxy.py line 109. -/
def requestFailedBody (msg : PyStr) : List Nat :=
  s2b "\x7b\"error\": \"Request failed: " ++ msg ++ s2b "\"\x7d"

/-- SimpleProxyHandler.do_POST (simple_proxy.py lines 29-117).  A path that
does not start with the prefix string is answered by send_error 404 before
anything else happens.  Otherwise the outcome of the outbound call decides:
on a response, the status is relayed, the CORS headers are sent, the
non-denylisted upstream headers are copied, and the body is either the
streaming trace writes (flag set) or one write of the whole body; on a
RequestException, a 500 with the CORS headers and the JSON error body. -/
def do_POST (req : Request) (up : Upstream) : HttpResponse :=
  if !(pyStartsWith req.path (s2b "/api/dashscope/")) then
    sendError 404 (s2b "Not Found") notFoundExplain
  else
    match up with
    | .ok status respHdrs chunks =>
        { status := status
          headers := corsHdrs ++ filterResponseHdrs respHdrs
          writes :=
            if isStreaming req.headers then writesOf (streamEvents chunks)
            else [chunks.flatten] }
    | .requestException msg =>
        { status := 500
          headers := corsHdrs ++ [(s2b "Content-Type", s2b "application/json")]
          writes := [requestFailedBody msg] }

/-- SimpleProxyHandler.do_OPTIONS (simple_proxy.py lines 23-27). -/
def do_OPTIONS : HttpResponse :=
  { status := 200, headers := corsHdrs, writes := [] }

/-- Method dispatch of BaseHTTPRequestHandler for this handler class: OPTIONS
and POST reach their handlers, any other method gets the 501 default. -/
def handle (req : Request) (up : Upstream) : HttpResponse :=
  if req.method == s2b "OPTIONS" then do_OPTIONS
  else if req.method == s2b "POST" then do_POST req up
  else unsupportedMethod req.method

end SimpleProxyHandler

namespace CORSProxyHandler

/-- The four headers emitted by CORSProxyHandler.send_cors_headers
(proxy_server.py lines 97-102).  Note the Allow-Headers value lists only
Content-Type and Authorization. -/
def corsHdrs : List (PyStr × PyStr) :=
  [(s2b "Access-Control-Allow-Origin", s2b "*"),
   (s2b "Access-Control-Allow-Methods", s2b "GET, POST, PUT, DELETE, OPTIONS"),
   (s2b "Access-Control-Allow-Headers", s2b "Content-Type, Authorization"),
   (s2b "Access-Control-Max-Age", s2b "86400")]

/-- The header copy loop of proxy_server.py lines 50-52: every non-denylisted
inbound header is stored through urllib Request.add_header, which capitalizes
the name it uses as dict key. -/
def filterRequestHdrs (hs : List (PyStr × PyStr)) : List (PyStr × PyStr) :=
  hs.foldl
    (fun d p =>
      if reqDenyNames.contains (pyLower p.1) then d else dictInsert d (pyCapitalize p.1) p.2) []

/-- Response-header denylist of proxy_server.py line 67: only the upstream
CORS origin header. -/
def respDenyNames : List PyStr := [s2b "access-control-allow-origin"]

/-- The response-header copy loop of proxy_server.py lines 66-68. -/
def filterResponseHdrs (hs : List (PyStr × PyStr)) : List (PyStr × PyStr) :=
  hs.filter fun p => !(respDenyNames.contains (pyLower p.1))

/-- Target URL computation of proxy_server.py lines 32-33, textually the same
as in simple_proxy.py. -/
def targetUrl (path : PyStr) : PyStr :=
  s2b "https://dashscope.aliyuncs.com" ++ pyReplace path (s2b "/api/dashscope") []

/-- The outbound request handed to urllib urlopen (proxy_server.py lines 43-60). -/
def outbound (req : Request) : OutboundRequest :=
  { url := targetUrl req.path, headers := filterRequestHdrs req.headers, body := req.body }

/-- Outcome of the urlopen call: a response with status, headers and a fully
read body; an HTTPError carrying the upstream status, reason, and the body if
a read of it succeeds; or any other exception (URLError from a transport-level
failure included), carrying its message. -/
inductive Upstream where
  | ok : Nat → List (PyStr × PyStr) → List Nat → Upstream
  | httpError : Nat → PyStr → Option (List Nat) → Upstream
  | otherError : PyStr → Upstream
  deriving DecidableEq

/-- The fallback JSON body of proxy_server.py line 87. -/
def httpErrorBody (code : Nat) (reason : PyStr) : List Nat :=
  s2b "\x7b\"error\": \"HTTP " ++ s2b (toString code) ++ s2b ": " ++ reason ++ s2b "\"\x7d"

/-- The JSON error body of proxy_server.py line 95. -/
def proxyErrorBody (msg : PyStr) : List Nat :=
  s2b "\x7b\"error\": \"Proxy error: " ++ msg ++ s2b "\"\x7d"

/-- CORSProxyHandler.do_POST (proxy_server.py lines 25-95).  Path mismatch is
answered by send_error 404.  On a response, status, CORS headers, the
non-denylisted upstream headers and one write of the whole body.  On an
HTTPError, its code, the CORS headers, no copied headers, and one write of
either the error body read from upstream or the fallback JSON.  On any other
exception, 500 with CORS headers, a JSON content type, and the proxy-error
JSON body. -/
def do_POST (req : Request) (up : Upstream) : HttpResponse :=
  if !(pyStartsWith req.path (s2b "/api/dashscope/")) then
    sendError 404 (s2b "Not Found") notFoundExplain
  else
    match up with
    | .ok status respHdrs body =>
        { status := status
          headers := corsHdrs ++ filterResponseHdrs respHdrs
          writes := [body] }
    | .httpError code reason errBody =>
        { status := code
          headers := corsHdrs
          writes := [match errBody with
                     | some body => body
                     | none => httpErrorBody code reason] }
    | .otherError msg =>
        { status := 500
          headers := corsHdrs ++ [(s2b "Content-Type", s2b "application/json")]
          writes := [proxyErrorBody msg] }

/-- CORSProxyHandler.do_OPTIONS (proxy_server.py lines 19-23). -/
def do_OPTIONS : HttpResponse :=
  { status := 200, headers := corsHdrs, writes := [] }

/-- Method dispatch of BaseHTTPRequestHandler for this handler class. -/
def handle (req : Request) (up : Upstream) : HttpResponse :=
  if req.method == s2b "OPTIONS" then do_OPTIONS
  else if req.method == s2b "POST" then do_POST req up
  else unsupportedMethod req.method

end CORSProxyHandler

/-! Helper lemmas. -/

theorem lowerB_upperB (b : Nat) : lowerB (upperB b) = lowerB b := by
  unfold lowerB upperB
  split_ifs <;> omega

theorem lowerB_lowerB (b : Nat) : lowerB (lowerB b) = lowerB b := by
  unfold lowerB
  split_ifs <;> omega

theorem pyLower_pyCapitalize (s : PyStr) : pyLower (pyCapitalize s) = pyLower s := by
  cases s with
  | nil => rfl
  | cons b rest =>
      simp only [pyLower, pyCapitalize, List.map_cons, List.map_map, lowerB_upperB]
      exact congrArg _ (List.map_congr_left fun x _ => lowerB_lowerB x)

theorem contains_iff_mem {l : List PyStr} {x : PyStr} : l.contains x = true ↔ x ∈ l := by
  simp [List.contains]

theorem dictInsert_of_new_key {d : List (PyStr × PyStr)} {k v : PyStr}
    (h : ∀ p ∈ d, p.1 ≠ k) : dictInsert d k v = d ++ [(k, v)] := by
  unfold dictInsert
  rw [if_neg]
  simp only [List.any_eq_true, beq_iff_eq, not_exists, not_and]
  exact fun p hp => h p hp

/-- Characterization of the header-copy fold of either handler: when the
lowercased inbound header names are pairwise distinct (the data model of the
spec, where a name is unique per lookup), no dict overwrite ever fires, and
the fold builds exactly the denylist-filtered inbound list with the name
transform f applied. -/
theorem foldl_hdr_build (f : PyStr → PyStr) (hf : ∀ n, pyLower (f n) = pyLower n) :
    ∀ (hs d : List (PyStr × PyStr)),
    (∀ q ∈ d, ∀ p ∈ hs, pyLower q.1 ≠ pyLower p.1) →
    (hs.map fun p => pyLower p.1).Nodup →
    hs.foldl
      (fun d p =>
        if reqDenyNames.contains (pyLower p.1) then d else dictInsert d (f p.1) p.2) d =
    d ++ (hs.filter fun p => !(reqDenyNames.contains (pyLower p.1))).map
          (fun p => (f p.1, p.2)) := by
  intro hs
  induction hs with
  | nil => intro d _ _; simp
  | cons p rest ih =>
      intro d hd hn
      rw [List.map_cons, List.nodup_cons] at hn
      by_cases hp : reqDenyNames.contains (pyLower p.1) = true
      · rw [List.foldl_cons, if_pos hp,
          List.filter_cons_of_neg (by simp only [hp]; decide)]
        exact ih d (fun q hq r hr => hd q hq r (List.mem_cons_of_mem _ hr)) hn.2
      · rw [Bool.not_eq_true] at hp
        rw [List.foldl_cons, if_neg (by simp only [hp]; decide),
          List.filter_cons_of_pos (by simp only [hp]; decide)]
        have hnew : ∀ q ∈ d, q.1 ≠ f p.1 := by
          intro q hq he
          exact hd q hq p (List.mem_cons_self _ _) (by rw [he, hf])
        rw [dictInsert_of_new_key hnew]
        have hd' : ∀ q ∈ d ++ [(f p.1, p.2)], ∀ r ∈ rest, pyLower q.1 ≠ pyLower r.1 := by
          intro q hq r hr
          rcases List.mem_append.1 hq with hq | hq
          · exact hd q hq r (List.mem_cons_of_mem _ hr)
          · have : q = (f p.1, p.2) := List.mem_singleton.1 hq
            subst this
            rw [hf]
            intro he
            exact hn.1 (he ▸ List.mem_map_of_mem (fun p => pyLower p.1) hr)
        rw [ih (d ++ [(f p.1, p.2)]) hd' hn.2, List.append_assoc]
        simp

theorem simple_filterRequestHdrs_eq (hs : List (PyStr × PyStr))
    (hn : (hs.map fun p => pyLower p.1).Nodup) :
    SimpleProxyHandler.filterRequestHdrs hs =
    hs.filter fun p => !(reqDenyNames.contains (pyLower p.1)) := by
  have h := foldl_hdr_build (fun n => n) (fun _ => rfl) hs [] (by simp) hn
  simpa [SimpleProxyHandler.filterRequestHdrs] using h

theorem cors_filterRequestHdrs_eq (hs : List (PyStr × PyStr))
    (hn : (hs.map fun p => pyLower p.1).Nodup) :
    CORSProxyHandler.filterRequestHdrs hs =
    (hs.filter fun p => !(reqDenyNames.contains (pyLower p.1))).map
      (fun p => (pyCapitalize p.1, p.2)) := by
  have h := foldl_hdr_build pyCapitalize pyLower_pyCapitalize hs [] (by simp) hn
  simpa [CORSProxyHandler.filterRequestHdrs] using h

theorem writesOf_streamEvents (chunks : List (List Nat)) :
    writesOf (streamEvents chunks) = chunks.filter (fun c => !(c == [])) := by
  induction chunks with
  | nil => rfl
  | cons c cs ih =>
      by_cases hc : c = []
      · subst hc
        simpa [streamEvents, writesOf] using ih
      · simp only [streamEvents, if_neg hc, writesOf, List.filterMap_cons]
        simpa [writesOf, hc] using ih

theorem flatten_filter_ne_nil (chunks : List (List Nat)) :
    (chunks.filter fun c => !(c == [])).flatten = chunks.flatten := by
  induction chunks with
  | nil => rfl
  | cons c cs ih =>
      by_cases hc : c = []
      · subst hc
        rw [List.filter_cons_of_neg (by simp)]
        simpa using ih
      · rw [List.filter_cons_of_pos (by simp [hc]), List.flatten_cons, ih, List.flatten_cons]

theorem flushAfterEachWrite_streamEvents (chunks : List (List Nat)) :
    flushAfterEachWrite (streamEvents chunks) = true := by
  induction chunks with
  | nil => rfl
  | cons c cs ih =>
      by_cases hc : c = []
      · simp [streamEvents, if_pos hc, flushAfterEachWrite, ih]
      · simp [streamEvents, if_neg hc, flushAfterEachWrite, ih]

theorem pyReplaceFuel_no_occur (pat rep : PyStr) :
    ∀ (fuel : Nat) (s : PyStr), s.length ≤ fuel → occursIn pat s = false →
    pyReplaceFuel fuel s pat rep = s := by
  intro fuel
  induction fuel with
  | zero => intro s _ _; rfl
  | succ f ih =>
      intro s hl ho
      cases s with
      | nil => rfl
      | cons b rest =>
          rw [occursIn, Bool.or_eq_false_iff] at ho
          rw [pyReplaceFuel, if_neg (by simp [ho.1])]
          rw [ih rest (by simpa using Nat.le_of_succ_le_succ hl) ho.2]

theorem pyReplaceFuel_head_match (fuel : Nat) (rest rep : PyStr) (a : Nat) (p : PyStr) :
    pyReplaceFuel (fuel + 1) ((a :: p) ++ rest) (a :: p) rep =
      rep ++ pyReplaceFuel fuel rest (a :: p) rep := by
  have hpre : (a :: p).isPrefixOf (a :: (p ++ rest)) = true := by
    rw [← List.cons_append]
    exact List.isPrefixOf_iff_prefix.2 (List.prefix_append _ _)
  show pyReplaceFuel (fuel + 1) (a :: (p ++ rest)) (a :: p) rep = _
  rw [pyReplaceFuel, if_pos ⟨List.cons_ne_nil a p, hpre⟩]
  congr 1
  rw [← List.cons_append, List.drop_left]

theorem pyReplace_strip_head (pat rest : PyStr) (hp : pat ≠ [])
    (ho : occursIn pat rest = false) :
    pyReplace (pat ++ rest) pat [] = rest := by
  cases pat with
  | nil => exact absurd rfl hp
  | cons a p =>
      unfold pyReplace
      have hlen : ((a :: p) ++ rest).length = (p ++ rest).length + 1 := by
        simp
      rw [hlen, pyReplaceFuel_head_match (p ++ rest).length rest [] a p, List.nil_append]
      exact pyReplaceFuel_no_occur (a :: p) [] (p ++ rest).length rest (by simp) ho

/-! Claim theorems. -/

/-- C1, counterexample.  The claim that every response of either handler
carries the four CORS headers with the section-6 values fails twice: the
preflight response of CORSProxyHandler carries an Access-Control-Allow-Headers
value without X-DashScope-SSE, so the section-6 header pair is absent from it;
and a 404 path-mismatch response of SimpleProxyHandler, sent through
send_error, carries no Access-Control-Allow-Origin header at all. -/
theorem c1_counterexample :
    CORSProxyHandler.do_OPTIONS.headers.contains
      (s2b "Access-Control-Allow-Headers",
       s2b "Content-Type, Authorization, X-DashScope-SSE") = false ∧
    ((SimpleProxyHandler.do_POST ⟨s2b "POST", s2b "/nope", [], []⟩
        (.ok 200 [] [])).headers.map Prod.fst).contains
      (s2b "Access-Control-Allow-Origin") = false := by
  exact ⟨by decide, by decide⟩

/-- C1, amended.  Every OPTIONS response and every POST response whose path
matches the prefix carries the four CORS headers of its own handler, where
SimpleProxyHandler uses exactly the section-6 values and CORSProxyHandler
omits X-DashScope-SSE from Access-Control-Allow-Headers (so the two header
sets differ); a POST response for a non-matching path carries none of the
CORS header names. -/
theorem c1_cors_headers_amended :
    ∀ (req : Request) (u : SimpleProxyHandler.Upstream) (v : CORSProxyHandler.Upstream),
      (pyStartsWith req.path (s2b "/api/dashscope/") = true →
        (∀ h ∈ SimpleProxyHandler.corsHdrs, h ∈ (SimpleProxyHandler.do_POST req u).headers) ∧
        (∀ h ∈ CORSProxyHandler.corsHdrs, h ∈ (CORSProxyHandler.do_POST req v).headers)) ∧
      (∀ h ∈ SimpleProxyHandler.corsHdrs, h ∈ SimpleProxyHandler.do_OPTIONS.headers) ∧
      (∀ h ∈ CORSProxyHandler.corsHdrs, h ∈ CORSProxyHandler.do_OPTIONS.headers) ∧
      SimpleProxyHandler.corsHdrs ≠ CORSProxyHandler.corsHdrs ∧
      (pyStartsWith req.path (s2b "/api/dashscope/") = false →
        (∀ h ∈ SimpleProxyHandler.corsHdrs,
          h.1 ∉ (SimpleProxyHandler.do_POST req u).headers.map Prod.fst) ∧
        (∀ h ∈ CORSProxyHandler.corsHdrs,
          h.1 ∉ (CORSProxyHandler.do_POST req v).headers.map Prod.fst)) := by
  intro req u v
  refine ⟨?_, fun h hh => hh, fun h hh => hh, by decide, ?_⟩
  · intro hacc
    constructor
    · intro h hh
      cases u <;> simp [SimpleProxyHandler.do_POST, hacc] <;> exact Or.inl hh
    · intro h hh
      cases v <;> simp [CORSProxyHandler.do_POST, hacc] <;> first
        | exact Or.inl hh
        | exact hh
  · intro hmiss
    have hsu : SimpleProxyHandler.do_POST req u =
        sendError 404 (s2b "Not Found") notFoundExplain := by
      simp [SimpleProxyHandler.do_POST, hmiss]
    have hcv : CORSProxyHandler.do_POST req v =
        sendError 404 (s2b "Not Found") notFoundExplain := by
      simp [CORSProxyHandler.do_POST, hmiss]
    rw [hsu, hcv]
    exact ⟨by decide, by decide⟩

/-- C1, witness for the amended theorem at a concrete accepted request. -/
theorem c1_witness :
    (s2b "Access-Control-Allow-Origin", s2b "*") ∈
      (SimpleProxyHandler.do_POST ⟨s2b "POST", s2b "/api/dashscope/v1/x", [], []⟩
        (.ok 200 [] [])).headers :=
  ((c1_cors_headers_amended ⟨s2b "POST", s2b "/api/dashscope/v1/x", [], []⟩
    (.ok 200 [] []) (.ok 200 [] [])).1 (by decide)).1
    (s2b "Access-Control-Allow-Origin", s2b "*") (by decide)

/-- C2.  For an accepted POST answered by an upstream response: the streaming
flag is set exactly when an inbound header has lowercased name x-dashscope-sse
and exact value enable; with the flag set the body writes are exactly the
non-empty upstream chunks in arrival order, each write is non-empty and is
followed immediately by a flush in the relay trace (so the flush precedes the
next read), and the concatenation of the writes equals the full upstream body;
with the flag unset the body is delivered in a single write of the whole
upstream body. -/
theorem c2_streaming_delivery :
    ∀ (req : Request) (status : Nat) (respHdrs : List (PyStr × PyStr))
      (chunks : List (List Nat)),
      pyStartsWith req.path (s2b "/api/dashscope/") = true →
      (SimpleProxyHandler.isStreaming req.headers = true ↔
        ∃ p ∈ req.headers, pyLower p.1 = s2b "x-dashscope-sse" ∧ p.2 = s2b "enable") ∧
      (SimpleProxyHandler.isStreaming req.headers = true →
        (SimpleProxyHandler.do_POST req (.ok status respHdrs chunks)).writes =
          writesOf (streamEvents chunks) ∧
        writesOf (streamEvents chunks) = chunks.filter (fun c => !(c == [])) ∧
        (∀ w ∈ writesOf (streamEvents chunks), w ≠ []) ∧
        (writesOf (streamEvents chunks)).flatten = chunks.flatten ∧
        flushAfterEachWrite (streamEvents chunks) = true) ∧
      (SimpleProxyHandler.isStreaming req.headers = false →
        (SimpleProxyHandler.do_POST req (.ok status respHdrs chunks)).writes =
          [chunks.flatten]) := by
  intro req status respHdrs chunks hacc
  refine ⟨?_, ?_, ?_⟩
  · simp only [SimpleProxyHandler.isStreaming, List.any_eq_true, Bool.and_eq_true,
      beq_iff_eq, Bool.not_eq_true]
    constructor
    · rintro ⟨p, hp, ⟨_, h2⟩, h3⟩
      exact ⟨p, hp, h2, h3⟩
    · rintro ⟨p, hp, h2, h3⟩
      exact ⟨p, hp, ⟨by rw [h2]; decide, h2⟩, h3⟩
  · intro hstream
    refine ⟨by simp [SimpleProxyHandler.do_POST, hacc, hstream],
      writesOf_streamEvents chunks, ?_, ?_,
      flushAfterEachWrite_streamEvents chunks⟩
    · intro w hw
      rw [writesOf_streamEvents] at hw
      rw [List.mem_filter] at hw
      simpa using hw.2
    · rw [writesOf_streamEvents]
      exact flatten_filter_ne_nil chunks
  · intro hstream
    simp [SimpleProxyHandler.do_POST, hacc, hstream]

/-- C2, witness: a concrete streamed exchange with an empty middle chunk. -/
theorem c2_witness :
    (SimpleProxyHandler.do_POST
      ⟨s2b "POST", s2b "/api/dashscope/v1/chat",
       [(s2b "X-DashScope-SSE", s2b "enable")], []⟩
      (.ok 200 [] [[104, 105], [], [33]])).writes = [[104, 105], [33]] := by
  have h := c2_streaming_delivery
    ⟨s2b "POST", s2b "/api/dashscope/v1/chat",
     [(s2b "X-DashScope-SSE", s2b "enable")], []⟩
    200 [] [[104, 105], [], [33]] (by decide)
  have hw := h.2.1 (by decide)
  rw [hw.1, hw.2.1]
  decide

/-- C3, counterexample.  The path rewrite is Python str.replace, which removes
every occurrence of the prefix string, not only the leading one: an accepted
path containing the prefix string a second time is rewritten with both
occurrences removed, not with the remainder preserved verbatim as the claim
states. -/
theorem c3_counterexample :
    pyStartsWith (s2b "/api/dashscope/v1/api/dashscope/foo") (s2b "/api/dashscope/") = true ∧
    SimpleProxyHandler.targetUrl (s2b "/api/dashscope/v1/api/dashscope/foo") =
      s2b "https://dashscope.aliyuncs.com/v1/foo" ∧
    SimpleProxyHandler.targetUrl (s2b "/api/dashscope/v1/api/dashscope/foo") ≠
      s2b "https://dashscope.aliyuncs.com/v1/api/dashscope/foo" := by
  exact ⟨by decide, by decide, by decide⟩

/-- C3, amended.  The target URL is the fixed origin followed by the path with
every occurrence of the prefix string removed; when the prefix string does not
reoccur in the remainder this coincides with removing the leading prefix and
preserving the rest verbatim, and the section-8 example rewrites exactly as
claimed, in both handlers. -/
theorem c3_rewrite_amended :
    (∀ rest : PyStr, occursIn (s2b "/api/dashscope") rest = false →
      SimpleProxyHandler.targetUrl (s2b "/api/dashscope" ++ rest) =
        s2b "https://dashscope.aliyuncs.com" ++ rest ∧
      CORSProxyHandler.targetUrl (s2b "/api/dashscope" ++ rest) =
        s2b "https://dashscope.aliyuncs.com" ++ rest) ∧
    SimpleProxyHandler.targetUrl (s2b "/api/dashscope/v1/foo?x=1") =
      s2b "https://dashscope.aliyuncs.com/v1/foo?x=1" ∧
    CORSProxyHandler.targetUrl (s2b "/api/dashscope/v1/foo?x=1") =
      s2b "https://dashscope.aliyuncs.com/v1/foo?x=1" := by
  refine ⟨fun rest h => ?_, by decide, by decide⟩
  have hstrip := pyReplace_strip_head (s2b "/api/dashscope") rest (by decide) h
  exact ⟨by rw [SimpleProxyHandler.targetUrl, hstrip],
         by rw [CORSProxyHandler.targetUrl, hstrip]⟩

/-- C3, witness for the amended theorem at the section-8 example remainder. -/
theorem c3_witness :
    SimpleProxyHandler.targetUrl (s2b "/api/dashscope" ++ s2b "/v1/foo?x=1") =
      s2b "https://dashscope.aliyuncs.com" ++ s2b "/v1/foo?x=1" :=
  (c3_rewrite_amended.1 (s2b "/v1/foo?x=1") (by decide)).1

/-- C4, counterexample.  A POST with a non-matching path is answered with
status 404 but the body is not empty: send_error writes the standard-library
HTML error page. -/
theorem c4_counterexample :
    (SimpleProxyHandler.do_POST ⟨s2b "POST", s2b "/other", [], []⟩
      (.ok 200 [] [])).status = 404 ∧
    (SimpleProxyHandler.do_POST ⟨s2b "POST", s2b "/other", [], []⟩
      (.ok 200 [] [])).writes.flatten ≠ [] := by
  exact ⟨by decide, by decide⟩

/-- C4, amended.  A POST whose path does not start with the prefix is answered
by send_error with status 404 and the standard-library HTML error page as
body (non-empty), in both handlers, and nothing is forwarded: the response
does not depend on the upstream outcome. -/
theorem c4_not_found_amended :
    ∀ (req : Request) (u u2 : SimpleProxyHandler.Upstream)
      (v v2 : CORSProxyHandler.Upstream),
      pyStartsWith req.path (s2b "/api/dashscope/") = false →
      SimpleProxyHandler.do_POST req u = sendError 404 (s2b "Not Found") notFoundExplain ∧
      CORSProxyHandler.do_POST req v = sendError 404 (s2b "Not Found") notFoundExplain ∧
      SimpleProxyHandler.do_POST req u = SimpleProxyHandler.do_POST req u2 ∧
      CORSProxyHandler.do_POST req v = CORSProxyHandler.do_POST req v2 ∧
      (SimpleProxyHandler.do_POST req u).status = 404 ∧
      (SimpleProxyHandler.do_POST req u).writes =
        [errorPageBody 404 (s2b "Not Found") notFoundExplain] ∧
      errorPageBody 404 (s2b "Not Found") notFoundExplain ≠ [] := by
  intro req u u2 v v2 h
  have hs : ∀ w : SimpleProxyHandler.Upstream,
      SimpleProxyHandler.do_POST req w = sendError 404 (s2b "Not Found") notFoundExplain :=
    fun w => by simp [SimpleProxyHandler.do_POST, h]
  have hc : ∀ w : CORSProxyHandler.Upstream,
      CORSProxyHandler.do_POST req w = sendError 404 (s2b "Not Found") notFoundExplain :=
    fun w => by simp [CORSProxyHandler.do_POST, h]
  refine ⟨hs u, hc v, (hs u).trans (hs u2).symm, (hc v).trans (hc v2).symm, ?_, ?_, by decide⟩
  · rw [hs u]; rfl
  · rw [hs u]; rfl

/-- C4, witness for the amended theorem at a concrete rejected request. -/
theorem c4_witness :
    (SimpleProxyHandler.do_POST ⟨s2b "POST", s2b "/api/other", [], []⟩
      (.ok 200 [] [])).status = 404 :=
  (c4_not_found_amended ⟨s2b "POST", s2b "/api/other", [], []⟩
    (.ok 200 [] []) (.requestException []) (.ok 200 [] []) (.otherError [])
    (by decide)).2.2.2.2.1

/-- C5.  Under the data model of the spec, where a header name is unique per
lookup (pairwise distinct lowercased names), an inbound header is present on
the outbound request, with its value unchanged and its name equal up to case,
exactly when its lowercased name is not one of host, origin, referer,
content-length; and no outbound header has a denylisted lowercased name.
Holds for both handlers; CORSProxyHandler stores names recapitalized by
urllib add_header, hence the comparison of names up to case. -/
theorem c5_request_header_filtering :
    ∀ (req : Request),
      (req.headers.map fun p => pyLower p.1).Nodup →
      (∀ p ∈ req.headers,
        ((∃ q ∈ (SimpleProxyHandler.outbound req).headers,
            pyLower q.1 = pyLower p.1 ∧ q.2 = p.2) ↔ pyLower p.1 ∉ reqDenyNames) ∧
        ((∃ q ∈ (CORSProxyHandler.outbound req).headers,
            pyLower q.1 = pyLower p.1 ∧ q.2 = p.2) ↔ pyLower p.1 ∉ reqDenyNames)) ∧
      (∀ q ∈ (SimpleProxyHandler.outbound req).headers, pyLower q.1 ∉ reqDenyNames) ∧
      (∀ q ∈ (CORSProxyHandler.outbound req).headers, pyLower q.1 ∉ reqDenyNames) := by
  intro req hn
  have hbr : ∀ x : PyStr, (!(reqDenyNames.contains x)) = true ↔ x ∉ reqDenyNames := by
    intro x; simp [List.contains]
  have hS : (SimpleProxyHandler.outbound req).headers =
      req.headers.filter fun p => !(reqDenyNames.contains (pyLower p.1)) :=
    simple_filterRequestHdrs_eq req.headers hn
  have hC : (CORSProxyHandler.outbound req).headers =
      (req.headers.filter fun p => !(reqDenyNames.contains (pyLower p.1))).map
        (fun p => (pyCapitalize p.1, p.2)) :=
    cors_filterRequestHdrs_eq req.headers hn
  refine ⟨?_, ?_, ?_⟩
  · intro p hp
    constructor
    · rw [hS]
      constructor
      · rintro ⟨q, hq, hql, hqv⟩
        rw [List.mem_filter] at hq
        rw [← hql]
        exact (hbr _).1 hq.2
      · intro hd
        exact ⟨p, List.mem_filter.2 ⟨hp, (hbr _).2 hd⟩, rfl, rfl⟩
    · rw [hC]
      constructor
      · rintro ⟨q, hq, hql, hqv⟩
        rw [List.mem_map] at hq
        obtain ⟨r, hr, hrq⟩ := hq
        rw [List.mem_filter] at hr
        have : pyLower r.1 = pyLower p.1 := by
          rw [← hql, ← hrq, pyLower_pyCapitalize]
        rw [← this]
        exact (hbr _).1 hr.2
      · intro hd
        refine ⟨(pyCapitalize p.1, p.2),
          List.mem_map_of_mem _ (List.mem_filter.2 ⟨hp, (hbr _).2 hd⟩), ?_, rfl⟩
        exact pyLower_pyCapitalize p.1
  · intro q hq
    rw [hS, List.mem_filter] at hq
    exact (hbr _).1 hq.2
  · intro q hq
    rw [hC, List.mem_map] at hq
    obtain ⟨r, hr, hrq⟩ := hq
    rw [List.mem_filter] at hr
    rw [← hrq]
    show pyLower (pyCapitalize r.1, r.2).1 ∉ reqDenyNames
    rw [pyLower_pyCapitalize]
    exact (hbr _).1 hr.2

/-- C5, witness at a concrete request holding one forwarded and one denied
header. -/
theorem c5_witness : pyLower (s2b "Authorization") ∉ reqDenyNames :=
  (c5_request_header_filtering
    ⟨s2b "POST", s2b "/api/dashscope/v1/x",
     [(s2b "Authorization", s2b "Bearer t"), (s2b "Host", s2b "localhost")], []⟩
    (by decide)).2.1 (s2b "Authorization", s2b "Bearer t") (by decide)

/-- C6, counterexample.  CORSProxyHandler copies a Content-Encoding header
from the upstream response to the relayed response: its denylist holds only
access-control-allow-origin. -/
theorem c6_counterexample :
    (s2b "Content-Encoding", s2b "gzip") ∈
      (CORSProxyHandler.do_POST ⟨s2b "POST", s2b "/api/dashscope/v1/x", [], []⟩
        (.ok 200 [(s2b "Content-Encoding", s2b "gzip")] [])).headers := by
  decide

/-- C6, amended.  For a relayed upstream response, the copied headers are the
upstream headers surviving each handler own denylist: SimpleProxyHandler
excludes access-control-allow-origin, content-encoding and transfer-encoding;
CORSProxyHandler excludes only access-control-allow-origin, and in particular
copies content-encoding and transfer-encoding headers. -/
theorem c6_response_header_filtering_amended :
    ∀ (req : Request) (status : Nat) (respHdrs : List (PyStr × PyStr))
      (chunks : List (List Nat)) (body : List Nat),
      pyStartsWith req.path (s2b "/api/dashscope/") = true →
      (SimpleProxyHandler.do_POST req (.ok status respHdrs chunks)).headers =
        SimpleProxyHandler.corsHdrs ++ SimpleProxyHandler.filterResponseHdrs respHdrs ∧
      (∀ p, p ∈ SimpleProxyHandler.filterResponseHdrs respHdrs ↔
        p ∈ respHdrs ∧ pyLower p.1 ∉ SimpleProxyHandler.respDenyNames) ∧
      (CORSProxyHandler.do_POST req (.ok status respHdrs body)).headers =
        CORSProxyHandler.corsHdrs ++ CORSProxyHandler.filterResponseHdrs respHdrs ∧
      (∀ p, p ∈ CORSProxyHandler.filterResponseHdrs respHdrs ↔
        p ∈ respHdrs ∧ pyLower p.1 ∉ CORSProxyHandler.respDenyNames) ∧
      (∀ p ∈ respHdrs, pyLower p.1 = s2b "content-encoding" →
        p ∈ (CORSProxyHandler.do_POST req (.ok status respHdrs body)).headers) ∧
      (∀ p ∈ respHdrs, pyLower p.1 = s2b "transfer-encoding" →
        p ∈ (CORSProxyHandler.do_POST req (.ok status respHdrs body)).headers) := by
  intro req status respHdrs chunks body hacc
  have hChdrs : (CORSProxyHandler.do_POST req (.ok status respHdrs body)).headers =
      CORSProxyHandler.corsHdrs ++ CORSProxyHandler.filterResponseHdrs respHdrs := by
    simp [CORSProxyHandler.do_POST, hacc]
  have hmemS : ∀ p, p ∈ SimpleProxyHandler.filterResponseHdrs respHdrs ↔
      p ∈ respHdrs ∧ pyLower p.1 ∉ SimpleProxyHandler.respDenyNames := by
    intro p
    rw [SimpleProxyHandler.filterResponseHdrs, List.mem_filter]
    simp [List.contains]
  have hmemC : ∀ p, p ∈ CORSProxyHandler.filterResponseHdrs respHdrs ↔
      p ∈ respHdrs ∧ pyLower p.1 ∉ CORSProxyHandler.respDenyNames := by
    intro p
    rw [CORSProxyHandler.filterResponseHdrs, List.mem_filter]
    simp [List.contains]
  refine ⟨by simp [SimpleProxyHandler.do_POST, hacc], hmemS, hChdrs, hmemC, ?_, ?_⟩
  · intro p hp hce
    rw [hChdrs]
    refine List.mem_append_right _ ((hmemC p).2 ⟨hp, ?_⟩)
    rw [hce]; decide
  · intro p hp hte
    rw [hChdrs]
    refine List.mem_append_right _ ((hmemC p).2 ⟨hp, ?_⟩)
    rw [hte]; decide

/-- C6, witness at a concrete relayed response. -/
theorem c6_witness :
    (s2b "X-Request-Id", s2b "7") ∈
      SimpleProxyHandler.filterResponseHdrs [(s2b "X-Request-Id", s2b "7")] :=
  ((c6_response_header_filtering_amended
      ⟨s2b "POST", s2b "/api/dashscope/v1/x", [], []⟩ 200
      [(s2b "X-Request-Id", s2b "7")] [] [] (by decide)).2.1
    (s2b "X-Request-Id", s2b "7")).2 ⟨by decide, by decide⟩

/-- C7, counterexample.  A transport-level failure in CORSProxyHandler raises
a URLError, which its code catches in the generic handler: the JSON error
value begins with Proxy error, not with Request failed as claimed for both
handlers. -/
theorem c7_counterexample :
    (CORSProxyHandler.do_POST ⟨s2b "POST", s2b "/api/dashscope/v1/x", [], []⟩
      (.otherError (s2b "timeout"))).status = 500 ∧
    (CORSProxyHandler.do_POST ⟨s2b "POST", s2b "/api/dashscope/v1/x", [], []⟩
      (.otherError (s2b "timeout"))).writes =
      [s2b "\x7b\"error\": \"Proxy error: timeout\"\x7d"] ∧
    (s2b "\x7b\"error\": \"Request failed:").isPrefixOf
      (s2b "\x7b\"error\": \"Proxy error: timeout\"\x7d") = false := by
  exact ⟨by decide, by decide, by decide⟩

/-- C7, amended.  On a transport-level upstream failure for an accepted POST,
SimpleProxyHandler responds 500 with its CORS headers, a JSON content type,
and a JSON body whose error value starts with Request failed; CORSProxyHandler
responds 500 with its CORS headers and a JSON body whose error value starts
with Proxy error instead. -/
theorem c7_upstream_failure_amended :
    ∀ (req : Request) (msg : PyStr),
      pyStartsWith req.path (s2b "/api/dashscope/") = true →
      SimpleProxyHandler.do_POST req (.requestException msg) =
        { status := 500
          headers := SimpleProxyHandler.corsHdrs ++
            [(s2b "Content-Type", s2b "application/json")]
          writes := [s2b "\x7b\"error\": \"Request failed: " ++ msg ++ s2b "\"\x7d"] } ∧
      (s2b "\x7b\"error\": \"Request failed: ").isPrefixOf
        ((SimpleProxyHandler.do_POST req (.requestException msg)).writes.flatten) = true ∧
      CORSProxyHandler.do_POST req (.otherError msg) =
        { status := 500
          headers := CORSProxyHandler.corsHdrs ++
            [(s2b "Content-Type", s2b "application/json")]
          writes := [s2b "\x7b\"error\": \"Proxy error: " ++ msg ++ s2b "\"\x7d"] } ∧
      (s2b "\x7b\"error\": \"Proxy error: ").isPrefixOf
        ((CORSProxyHandler.do_POST req (.otherError msg)).writes.flatten) = true := by
  intro req msg hacc
  have hS : SimpleProxyHandler.do_POST req (.requestException msg) =
      { status := 500
        headers := SimpleProxyHandler.corsHdrs ++
          [(s2b "Content-Type", s2b "application/json")]
        writes := [s2b "\x7b\"error\": \"Request failed: " ++ msg ++ s2b "\"\x7d"] } := by
    simp [SimpleProxyHandler.do_POST, hacc, SimpleProxyHandler.requestFailedBody]
  have hC : CORSProxyHandler.do_POST req (.otherError msg) =
      { status := 500
        headers := CORSProxyHandler.corsHdrs ++
          [(s2b "Content-Type", s2b "application/json")]
        writes := [s2b "\x7b\"error\": \"Proxy error: " ++ msg ++ s2b "\"\x7d"] } := by
    simp [CORSProxyHandler.do_POST, hacc, CORSProxyHandler.proxyErrorBody]
  refine ⟨hS, ?_, hC, ?_⟩
  · rw [hS]
    show (s2b "\x7b\"error\": \"Request failed: ").isPrefixOf
      ((s2b "\x7b\"error\": \"Request failed: " ++ msg ++ s2b "\"\x7d") ++ []) = true
    rw [List.append_nil, List.append_assoc]
    exact List.isPrefixOf_iff_prefix.2 (List.prefix_append _ _)
  · rw [hC]
    show (s2b "\x7b\"error\": \"Proxy error: ").isPrefixOf
      ((s2b "\x7b\"error\": \"Proxy error: " ++ msg ++ s2b "\"\x7d") ++ []) = true
    rw [List.append_nil, List.append_assoc]
    exact List.isPrefixOf_iff_prefix.2 (List.prefix_append _ _)

/-- C7, witness at a concrete failed exchange. -/
theorem c7_witness :
    (SimpleProxyHandler.do_POST ⟨s2b "POST", s2b "/api/dashscope/v1/x", [], []⟩
      (.requestException (s2b "refused"))).status = 500 := by
  rw [(c7_upstream_failure_amended ⟨s2b "POST", s2b "/api/dashscope/v1/x", [], []⟩
    (s2b "refused") (by decide)).1]

/-- C8, counterexample.  The two handlers do not produce the same
caller-visible response on every request: already their preflight responses
differ, in the Access-Control-Allow-Headers value. -/
theorem c8_counterexample :
    SimpleProxyHandler.do_OPTIONS ≠ CORSProxyHandler.do_OPTIONS := by
  decide

/-- C8, amended.  The handlers agree on the target URL for every path, on the
404 rejection of every non-matching POST, and, for inbound headers with
pairwise distinct lowercased names, on the outbound headers up to header-name
case; but they are not equivalent: their preflight responses differ in the
CORS header values and their response-header denylists differ. -/
theorem c8_handlers_not_equivalent_amended :
    (∀ path : PyStr, SimpleProxyHandler.targetUrl path = CORSProxyHandler.targetUrl path) ∧
    (∀ (req : Request) (u : SimpleProxyHandler.Upstream) (v : CORSProxyHandler.Upstream),
      pyStartsWith req.path (s2b "/api/dashscope/") = false →
      SimpleProxyHandler.do_POST req u = CORSProxyHandler.do_POST req v) ∧
    (∀ hs : List (PyStr × PyStr), (hs.map fun p => pyLower p.1).Nodup →
      (SimpleProxyHandler.filterRequestHdrs hs).map (fun p => (pyLower p.1, p.2)) =
      (CORSProxyHandler.filterRequestHdrs hs).map (fun p => (pyLower p.1, p.2))) ∧
    SimpleProxyHandler.do_OPTIONS.headers ≠ CORSProxyHandler.do_OPTIONS.headers ∧
    SimpleProxyHandler.respDenyNames ≠ CORSProxyHandler.respDenyNames := by
  refine ⟨fun path => rfl, ?_, ?_, by decide, by decide⟩
  · intro req u v h
    simp [SimpleProxyHandler.do_POST, CORSProxyHandler.do_POST, h]
  · intro hs hn
    rw [simple_filterRequestHdrs_eq hs hn, cors_filterRequestHdrs_eq hs hn, List.map_map]
    exact List.map_congr_left fun p _ => by
      simp [Function.comp, pyLower_pyCapitalize]

/-- C8, witness for the parts of the amended theorem carrying hypotheses. -/
theorem c8_witness :
    (SimpleProxyHandler.filterRequestHdrs [(s2b "X-Api-Key", s2b "k")]).map
      (fun p => (pyLower p.1, p.2)) =
    (CORSProxyHandler.filterRequestHdrs [(s2b "X-Api-Key", s2b "k")]).map
      (fun p => (pyLower p.1, p.2)) :=
  c8_handlers_not_equivalent_amended.2.2.1 [(s2b "X-Api-Key", s2b "k")] (by decide)

/-- C9.  An OPTIONS request, to any path, is answered with status 200, an
empty body, and exactly the CORS headers of the handler, and the response does
not depend on the upstream outcome parameter, so upstream is never contacted. -/
theorem c9_preflight :
    ∀ (req : Request) (u u2 : SimpleProxyHandler.Upstream)
      (v v2 : CORSProxyHandler.Upstream),
      req.method = s2b "OPTIONS" →
      SimpleProxyHandler.handle req u = SimpleProxyHandler.do_OPTIONS ∧
      SimpleProxyHandler.handle req u = SimpleProxyHandler.handle req u2 ∧
      (SimpleProxyHandler.handle req u).status = 200 ∧
      (SimpleProxyHandler.handle req u).writes = [] ∧
      (SimpleProxyHandler.handle req u).headers = SimpleProxyHandler.corsHdrs ∧
      CORSProxyHandler.handle req v = CORSProxyHandler.do_OPTIONS ∧
      CORSProxyHandler.handle req v = CORSProxyHandler.handle req v2 ∧
      (CORSProxyHandler.handle req v).status = 200 ∧
      (CORSProxyHandler.handle req v).writes = [] ∧
      (CORSProxyHandler.handle req v).headers = CORSProxyHandler.corsHdrs := by
  intro req u u2 v v2 h
  have hS : ∀ w : SimpleProxyHandler.Upstream,
      SimpleProxyHandler.handle req w = SimpleProxyHandler.do_OPTIONS :=
    fun w => by simp [SimpleProxyHandler.handle, h]
  have hC : ∀ w : CORSProxyHandler.Upstream,
      CORSProxyHandler.handle req w = CORSProxyHandler.do_OPTIONS :=
    fun w => by simp [CORSProxyHandler.handle, h]
  refine ⟨hS u, (hS u).trans (hS u2).symm, ?_, ?_, ?_,
          hC v, (hC v).trans (hC v2).symm, ?_, ?_, ?_⟩ <;>
    first
      | (rw [hS u]; rfl)
      | (rw [hC v]; rfl)

/-- C9, witness at a concrete preflight request. -/
theorem c9_witness :
    (SimpleProxyHandler.handle ⟨s2b "OPTIONS", s2b "/anywhere", [], []⟩
      (.ok 200 [] [])).status = 200 :=
  (c9_preflight ⟨s2b "OPTIONS", s2b "/anywhere", [], []⟩
    (.ok 200 [] []) (.requestException []) (.ok 200 [] []) (.otherError [])
    (by decide)).2.2.1

/-- C10.  The route test is startswith on the literal string of the prefix
followed by a slash: the path equal to the bare prefix, and any path extending
the prefix without a slash, are rejected with the send_error 404 response and
the handlers never consult the upstream outcome for them; conversely a path
that does start with the slash-terminated prefix does not take the 404 route. -/
theorem c10_route_requires_slash :
    (∀ (m : PyStr) (hs : List (PyStr × PyStr)) (body : List Nat)
       (u : SimpleProxyHandler.Upstream) (v : CORSProxyHandler.Upstream),
      SimpleProxyHandler.do_POST ⟨m, s2b "/api/dashscope", hs, body⟩ u =
        sendError 404 (s2b "Not Found") notFoundExplain ∧
      CORSProxyHandler.do_POST ⟨m, s2b "/api/dashscope", hs, body⟩ v =
        sendError 404 (s2b "Not Found") notFoundExplain ∧
      SimpleProxyHandler.do_POST ⟨m, s2b "/api/dashscopeX", hs, body⟩ u =
        sendError 404 (s2b "Not Found") notFoundExplain ∧
      CORSProxyHandler.do_POST ⟨m, s2b "/api/dashscopeX", hs, body⟩ v =
        sendError 404 (s2b "Not Found") notFoundExplain) ∧
    (∀ (req : Request) (u : SimpleProxyHandler.Upstream) (v : CORSProxyHandler.Upstream),
      (pyStartsWith req.path (s2b "/api/dashscope/") = false →
        SimpleProxyHandler.do_POST req u =
          sendError 404 (s2b "Not Found") notFoundExplain ∧
        CORSProxyHandler.do_POST req v =
          sendError 404 (s2b "Not Found") notFoundExplain) ∧
      (pyStartsWith req.path (s2b "/api/dashscope/") = true →
        SimpleProxyHandler.do_POST req (.ok 200 [] []) ≠
          sendError 404 (s2b "Not Found") notFoundExplain ∧
        CORSProxyHandler.do_POST req (.ok 200 [] []) ≠
          sendError 404 (s2b "Not Found") notFoundExplain)) := by
  constructor
  · intro m hs body u v
    refine ⟨?_, ?_, ?_, ?_⟩ <;>
      simp [SimpleProxyHandler.do_POST, CORSProxyHandler.do_POST,
        show pyStartsWith (s2b "/api/dashscope") (s2b "/api/dashscope/") = false by decide,
        show pyStartsWith (s2b "/api/dashscopeX") (s2b "/api/dashscope/") = false by decide]
  · intro req u v
    constructor
    · intro h
      exact ⟨by simp [SimpleProxyHandler.do_POST, h],
             by simp [CORSProxyHandler.do_POST, h]⟩
    · intro h
      constructor
      · simp only [SimpleProxyHandler.do_POST, h, Bool.not_true, Bool.false_eq_true,
          if_false]
        intro heq
        have hst : (200 : Nat) = 404 := by
          simpa [sendError] using congrArg HttpResponse.status heq
        exact absurd hst (by decide)
      · simp only [CORSProxyHandler.do_POST, h, Bool.not_true, Bool.false_eq_true,
          if_false]
        intro heq
        have hst : (200 : Nat) = 404 := by
          simpa [sendError] using congrArg HttpResponse.status heq
        exact absurd hst (by decide)

/-- C10, witness for the hypotheses of the second part at concrete paths. -/
theorem c10_witness :
    SimpleProxyHandler.do_POST ⟨s2b "POST", s2b "/api/dashscope", [], []⟩
      (.ok 200 [] []) = sendError 404 (s2b "Not Found") notFoundExplain ∧
    SimpleProxyHandler.do_POST ⟨s2b "POST", s2b "/api/dashscope/v1", [], []⟩
      (.ok 200 [] []) ≠ sendError 404 (s2b "Not Found") notFoundExplain :=
  ⟨((c10_route_requires_slash.2 ⟨s2b "POST", s2b "/api/dashscope", [], []⟩
      (.ok 200 [] []) (.ok 200 [] [])).1 (by decide)).1,
   ((c10_route_requires_slash.2 ⟨s2b "POST", s2b "/api/dashscope/v1", [], []⟩
      (.ok 200 [] []) (.ok 200 [] [])).2 (by decide)).1⟩

end Muse
